import Mathlib

/-!
Shallow embedding of the language-resolution and session-history logic of
`src/CodeOptimizer.py` (a Streamlit app).  The embedding mirrors the source:

* `EXTENSION_TO_LANG` — the extension table at lines 122-150.
* `splitextExt` — the extension part of `os.path.splitext` (CPython's
  `genericpath._splitext` with `sep = '/'`, no altsep).
* `pygments_to_lang` — the alias table at lines 164-204 (insertion order kept,
  since the stripped-name loop at lines 212-215 iterates in that order).
* `normalize_pygments_name` — lines 161-218: the raw lexer name is lower-cased
  (`lexer.name.lower()`), looked up directly, then lower-cased again, then
  matched with all non-`[a-z0-9]` characters stripped from both sides, and
  finally the (lower-cased) raw name itself is the fallback.
* `resolveLanguage` — lines 119-220; the external heuristic is a parameter
  `guess : String → Option String`, `none` standing for the `ClassNotFound`
  exception caught at line 219.
* `SessionState` and the button handlers — lines 36-45, 256-311 and the
  comparison-view condition at lines 313-319.  The external completion call
  is a parameter `complete : String → String` (the dict/text normalization at
  lines 291 and 305 folded into it, per the collaborator boundary).
-/

/-- One saved optimize operation: the dict appended at lines 293-297. -/
structure HistoryEntry where
  messy : String
  cleaned : String
  language : Option String
deriving DecidableEq, Repr

/-- Session state: `history`, `text_input_value`, `clear_triggered`
(lines 36-45) and `show_explanation_only` (lines 284-285). -/
structure SessionState where
  history : List HistoryEntry
  text_input_value : String
  clear_triggered : Bool
  show_explanation_only : Bool
deriving DecidableEq, Repr

/-- The initial session state (lines 36-45, 284-285). -/
def initState : SessionState :=
  { history := [], text_input_value := "", clear_triggered := false,
    show_explanation_only := false }

/-- Extension table, lines 122-150 of the source. -/
def EXTENSION_TO_LANG : List (String × String) :=
  [(".py", "python"), (".js", "javascript"), (".java", "java"), (".c", "c"),
   (".cpp", "cpp"), (".cc", "cpp"), (".cxx", "cpp"), (".cs", "csharp"),
   (".go", "go"), (".rb", "ruby"), (".php", "php"), (".rs", "rust"),
   (".ts", "typescript"), (".kt", "kotlin"), (".swift", "swift"),
   (".scala", "scala"), (".pl", "perl"), (".r", "r"), (".sh", "bash"),
   (".html", "html"), (".css", "css"), (".sql", "sql"), (".json", "json"),
   (".xml", "xml"), (".yaml", "yaml"), (".yml", "yaml"), (".md", "markdown")]

/-- `str.lower()` on one character, for the ASCII names this program
handles (extension strings, Pygments lexer names, alias-table keys). -/
def pyLowerChar (c : Char) : Char :=
  if 65 ≤ c.toNat && c.toNat ≤ 90 then Char.ofNat (c.toNat + 32) else c

/-- `str.lower()` (ASCII range; all strings the tables compare are ASCII). -/
def pyLower (s : String) : String := String.mk (s.data.map pyLowerChar)

/-- Truthiness of `s.strip()`: true iff `s` has a non-whitespace character. -/
def pyStripTruthy (s : String) : Bool := s.data.any (fun c => !c.isWhitespace)

/-- Index of the last occurrence of `c` in `l`, if any. -/
def lastIdxOf (c : Char) (l : List Char) : Option Nat :=
  l.enum.foldl (fun acc p => if p.2 = c then some p.1 else acc) none

/-- The extension component of CPython's `os.path.splitext` (posix):
the suffix from the last dot, provided that dot lies after the last `/`
and is not part of the leading run of dots of the base name. -/
def splitextExt (p : String) : String :=
  let l := p.data
  let sepIndex : Int := match lastIdxOf '/' l with
    | some i => (i : Int)
    | none => -1
  let dotIndex : Int := match lastIdxOf '.' l with
    | some i => (i : Int)
    | none => -1
  if dotIndex > sepIndex then
    if (List.range l.length).any (fun i =>
        (decide (sepIndex + 1 ≤ (i : Int)) && decide ((i : Int) < dotIndex))
          && !(l.get? i == some '.')) then
      String.mk (l.drop dotIndex.toNat)
    else ""
  else ""

/-- Pygments-name alias table, lines 164-204, in source order. -/
def pygments_to_lang : List (String × String) :=
  [("python", "python"), ("py", "python"), ("python3", "python"),
   ("javascript", "javascript"), ("js", "javascript"), ("java", "java"),
   ("c", "c"), ("c++", "cpp"), ("cpp", "cpp"), ("c#", "csharp"),
   ("csharp", "csharp"), ("c-sharp", "csharp"), ("c# (c-sharp)", "csharp"),
   ("go", "go"), ("golang", "go"), ("ruby", "ruby"), ("rb", "ruby"),
   ("php", "php"), ("rust", "rust"), ("typescript", "typescript"),
   ("ts", "typescript"), ("kotlin", "kotlin"), ("swift", "swift"),
   ("scala", "scala"), ("perl", "perl"), ("r", "r"), ("bash", "bash"),
   ("sh", "bash"), ("shell", "bash"), ("html", "html"), ("xml+html", "html"),
   ("css", "css"), ("sql", "sql"), ("json", "json"), ("xml", "xml"),
   ("yaml", "yaml"), ("yml", "yaml"), ("markdown", "markdown"),
   ("md", "markdown")]

/-- `re.sub(r'[^a-z0-9]', '', s)`: keep only lowercase ASCII letters and
digits (line 211/213). -/
def stripNonAlnum (s : String) : String :=
  String.mk (s.data.filter (fun c =>
    (97 ≤ c.toNat && c.toNat ≤ 122) || (48 ≤ c.toNat && c.toNat ≤ 57)))

/-- Lines 162-218: `pygments_name = lexer.name.lower()`, direct lookup,
lookup of the lower-cased name, stripped-name loop, raw-name fallback. -/
def normalize_pygments_name (rawName : String) : String :=
  let pygments_name := pyLower rawName
  let d1 := List.lookup pygments_name pygments_to_lang
  let d2 := match d1 with
    | some v => some v
    | none => List.lookup (pyLower pygments_name) pygments_to_lang
  match d2 with
  | some v => v
  | none =>
    let simple_name := stripNonAlnum (pyLower pygments_name)
    match pygments_to_lang.find?
        (fun kv => stripNonAlnum (pyLower kv.1) == simple_name) with
    | some kv => kv.2
    | none => pygments_name

/-- Lines 119-220: extension lookup first (when a file with a non-empty name
is present), then — only if that produced nothing — the lexer-guessing
heuristic followed by alias normalization; `guess` returning `none` models
the `ClassNotFound` exception handled at lines 219-220. -/
def resolveLanguage (uploadedFileName : Option String) (codeText : String)
    (guess : String → Option String) : Option String :=
  let byExt : Option String :=
    match uploadedFileName with
    | some name =>
      if name ≠ "" then
        List.lookup (pyLower (splitextExt name)) EXTENSION_TO_LANG
      else none
    | none => none
  match byExt with
  | some lang => some lang
  | none =>
    if codeText ≠ "" then
      match guess codeText with
      | some rawName => some (normalize_pygments_name rawName)
      | none => none
    else none

/-- Python string interpolation of `detected_language`, which may be `None`
(rendered as the text "None" when substituted into the template). -/
def pyStr : Option String → String
  | some s => s
  | none => "None"

/-- The "clean and comment" prompt template (lines 223-228) with
`language` and `code` substituted. -/
def clean_prompt (language : Option String) (code : String) : String :=
  "You are a helpful code formatter and explainer. " ++
  "Given the following messy or unordered " ++ pyStr language ++
  " code, return a clean, well-formatted, and readable version with " ++
  "helpful comments explaining the code. " ++
  "Do not add explanations outside the code, just return the cleaned " ++
  "and commented code.\n\n" ++
  "Messy code:\n" ++ code ++ "\n\nCleaned and commented code:"

/-- The "explain step by step" prompt template (lines 232-240) with
`language` and `code` substituted. -/
def explain_prompt (language : Option String) (code : String) : String :=
  "You are a helpful programming assistant. " ++
  "Explain what the following " ++ pyStr language ++
  " code does, step by step, in a visually structured way. " ++
  "For each important code line or block, start with a callout and show " ++
  "the code using inline code formatting (single backticks). " ++
  "Then, use bullet points to explain what that line or block does. " ++
  "Highlight important terms or concepts in bold. " ++
  "Use clear, readable markdown, and make the explanation easy to scan, " ++
  "like a professional code review or tutorial.\n\n" ++
  "Code:\n" ++ code ++ "\n\nExplanation:"

/-- The optimize handler (lines 288-298): runs only when the button was
pressed and `messy_code.strip()` is truthy; calls `complete` on the clean
prompt, appends one history entry, and resets `show_explanation_only`. -/
def optimize_handler (complete : String → String) (messy : String)
    (lang : Option String) (s : SessionState) : SessionState :=
  if pyStripTruthy messy then
    { s with
      history := s.history ++
        [{ messy := messy, cleaned := complete (clean_prompt lang messy),
           language := lang }],
      show_explanation_only := false }
  else s

/-- The explain handler (lines 300-311): when `messy_code.strip()` is truthy
it sets `show_explanation_only := true`, calls `complete` on the explain
prompt, renders the explanation, resets the flag to `false` and stops the
pass.  Returns (state while rendering, final state, rendered explanation). -/
def explain_handler (complete : String → String) (messy : String)
    (lang : Option String) (s : SessionState) :
    SessionState × SessionState × Option String :=
  if pyStripTruthy messy then
    let mid := { s with show_explanation_only := true }
    let text := complete (explain_prompt lang messy)
    (mid, { mid with show_explanation_only := false }, some text)
  else (s, s, none)

/-- Outcome message of the revert handler (lines 257 and 266). -/
inductive RevertMsg where
  | nothingToRevert
  | reverted
deriving DecidableEq, Repr

/-- The revert handler (lines 256-266): warn and change nothing when
`len(history) <= 1`; otherwise pop the last entry and make the new last
entry the active view (`messy_code` / `optimized` / `detected_language`).
Returns (new state, reported message, active-view entry if reverted). -/
def revert_handler (s : SessionState) :
    SessionState × RevertMsg × Option HistoryEntry :=
  if s.history.length ≤ 1 then
    (s, RevertMsg.nothingToRevert, none)
  else
    let h := s.history.dropLast
    ({ s with history := h }, RevertMsg.reverted, h.getLast?)

/-- The clear handler (lines 269-277): empty the history, empty the text
input value, set `clear_triggered` and rerun. -/
def clear_handler (s : SessionState) : SessionState :=
  { s with history := [], text_input_value := "", clear_triggered := true }

/-- The value the text-area widget is rendered with (lines 100-117):
blank when `clear_triggered` is set; otherwise the uploaded file's decoded
content when a file is present and non-empty, else `text_input_value`. -/
def displayed_input (s : SessionState) (uploadedCode : Option String) :
    String :=
  if s.clear_triggered then ""
  else
    match uploadedCode with
    | some u => if u ≠ "" then u else s.text_input_value
    | none => s.text_input_value

/-- Lines 279-281: the `clear_triggered` flag is reset (after the widget is
created) on every pass, before any button handler runs. -/
def beginPass (s : SessionState) : SessionState :=
  { s with clear_triggered := false }

/-- The comparison-view condition (lines 313-323): the view shows
`history[-1]` exactly when history is truthy, the last entry's `cleaned`
and `messy` both strip to non-empty, and `show_explanation_only` is off. -/
def comparison_view (s : SessionState) : Option HistoryEntry :=
  match s.history.getLast? with
  | some last =>
    if pyStripTruthy last.cleaned && pyStripTruthy last.messy
        && !s.show_explanation_only then
      some last
    else none
  | none => none

/-- States reachable from the initial session state by complete passes of
the script.  On every pass the user controls the text buffer (`edit`, via
the text area's on-change callback at line 116, so `messy` below is
arbitrary), the optional uploaded file name, and which button (if any) was
pressed; the external heuristic `guess` and completion `complete` behave
arbitrarily.  The detected language fed to a handler is always the one the
script computes, `resolveLanguage`. -/
inductive Reachable : SessionState → Prop where
  | init : Reachable initState
  | edit (s : SessionState) (t : String) : Reachable s →
      Reachable { s with text_input_value := t }
  | idlePass (s : SessionState) : Reachable s → Reachable (beginPass s)
  | optimizePass (s : SessionState) (fn : Option String) (messy : String)
      (guess : String → Option String) (complete : String → String) :
      Reachable s →
      Reachable (optimize_handler complete messy
        (resolveLanguage fn messy guess) (beginPass s))
  | explainPass (s : SessionState) (fn : Option String) (messy : String)
      (guess : String → Option String) (complete : String → String) :
      Reachable s →
      Reachable (explain_handler complete messy
        (resolveLanguage fn messy guess) (beginPass s)).2.1
  | revertPass (s : SessionState) : Reachable s →
      Reachable (revert_handler (beginPass s)).1
  | clearPass (s : SessionState) : Reachable s →
      Reachable (clear_handler (beginPass s))

example : resolveLanguage (some "script.py") "var x = 1;"
    (fun _ => some "JavaScript") = some "python" := by rfl

example : resolveLanguage none "x" (fun _ => some "C++") = some "cpp" := by rfl

example : resolveLanguage none "x" (fun _ => some "Brainfuck")
    = some "brainfuck" := by rfl

example : resolveLanguage none "x" (fun _ => none) = none := by rfl

example : splitextExt ".bashrc" = "" := by rfl

example : splitextExt "a.tar.GZ" = ".GZ" := by rfl

/-- C1: when the uploaded file name's extension, lower-cased with its
leading dot, is a key of `EXTENSION_TO_LANG`, `resolveLanguage` returns the
mapped tag for every code text and every behaviour of the lexer-guessing
heuristic — so the heuristic is never consulted and the code content is
irrelevant. -/
theorem extension_always_wins (name codeText lang : String)
    (guess : String → Option String) (hname : name ≠ "")
    (hext : List.lookup (pyLower (splitextExt name)) EXTENSION_TO_LANG
      = some lang) :
    resolveLanguage (some name) codeText guess = some lang := by
  unfold resolveLanguage
  simp [hname, hext]

/-- A `script.py` upload resolves to `python` even though the content and
the heuristic say JavaScript. -/
theorem extension_always_wins_witness :
    resolveLanguage (some "script.py") "var x = 1;"
      (fun _ => some "JavaScript") = some "python" :=
  extension_always_wins "script.py" "var x = 1;" "python"
    (fun _ => some "JavaScript") (by decide) (by rfl)

/-- C2: an optimize with a non-blank buffer appends exactly one entry
(built from the buffer, the completion of the clean prompt, and the
language) at the end of `history`, keeps every previously stored entry
unchanged at its index, and two successive optimizes from an empty history
give the two entries in order, the first untouched by the second call. -/
theorem optimize_appends_one_entry (s : SessionState)
    (c₁ c₂ : String → String) (m₁ m₂ : String) (l₁ l₂ : Option String)
    (h₁ : pyStripTruthy m₁ = true) (h₂ : pyStripTruthy m₂ = true) :
    (optimize_handler c₁ m₁ l₁ s).history
      = s.history ++ [⟨m₁, c₁ (clean_prompt l₁ m₁), l₁⟩] ∧
    (∀ i : Nat, i < s.history.length →
      (optimize_handler c₁ m₁ l₁ s).history[i]? = s.history[i]?) ∧
    (s.history = [] →
      (optimize_handler c₂ m₂ l₂ (optimize_handler c₁ m₁ l₁ s)).history
        = [⟨m₁, c₁ (clean_prompt l₁ m₁), l₁⟩,
           ⟨m₂, c₂ (clean_prompt l₂ m₂), l₂⟩]) := by
  refine ⟨by simp [optimize_handler, h₁], ?_, ?_⟩
  · intro i hi
    simp only [optimize_handler, h₁, if_pos]
    exact List.getElem?_append_left hi
  · intro h0
    simp [optimize_handler, h₁, h₂, h0]

/-- Two optimizes from the initial state leave exactly the two entries in
order. -/
theorem optimize_appends_one_entry_witness :
    (optimize_handler (fun _ => "ok2") "y" none
      (optimize_handler (fun _ => "ok1") "x" (some "python")
        initState)).history
      = [⟨"x", "ok1", some "python"⟩, ⟨"y", "ok2", none⟩] :=
  (optimize_appends_one_entry initState (fun _ => "ok1") (fun _ => "ok2")
    "x" "y" (some "python") none (by decide) (by decide)).2.2 rfl

/-- C3: revert with at most one stored entry returns the state unchanged
with the "nothing to revert" message and no view change; revert with more
than one entry pops exactly the last entry (length `N-1`), leaves all other
state fields unchanged, reports success, and the active view is the new
last entry. -/
theorem revert_pops_or_warns (s : SessionState) :
    (s.history.length ≤ 1 →
      revert_handler s = (s, RevertMsg.nothingToRevert, none)) ∧
    (1 < s.history.length →
      (revert_handler s).1.history = s.history.dropLast ∧
      (revert_handler s).1.history.length = s.history.length - 1 ∧
      (revert_handler s).1.text_input_value = s.text_input_value ∧
      (revert_handler s).1.clear_triggered = s.clear_triggered ∧
      (revert_handler s).1.show_explanation_only
        = s.show_explanation_only ∧
      (revert_handler s).2.1 = RevertMsg.reverted ∧
      (revert_handler s).2.2 = (revert_handler s).1.history.getLast?) := by
  constructor
  · intro h
    simp [revert_handler, h]
  · intro h
    simp [revert_handler, Nat.not_le.mpr h]

/-- Revert on the empty initial history warns and changes nothing; revert
on a two-entry history keeps exactly the first entry. -/
theorem revert_pops_or_warns_witness :
    revert_handler initState = (initState, RevertMsg.nothingToRevert, none) ∧
    (revert_handler
      { history := [⟨"a", "b", none⟩, ⟨"c", "d", none⟩],
        text_input_value := "", clear_triggered := false,
        show_explanation_only := false }).1.history = [⟨"a", "b", none⟩] :=
  ⟨(revert_pops_or_warns initState).1 (by decide),
   ((revert_pops_or_warns
      { history := [⟨"a", "b", none⟩, ⟨"c", "d", none⟩],
        text_input_value := "", clear_triggered := false,
        show_explanation_only := false }).2 (by decide)).1⟩

/-- C4 as stated is false: the comparison view at lines 314-318 also
requires the last entry's `cleaned` and `messy` to strip to non-empty.
An optimize whose completion returns the empty string is reachable and
yields a state with non-empty history and the flag off in which the
displayed optimized view is not `history[-1]` but nothing at all. -/
theorem comparison_view_counterexample :
    Reachable (optimize_handler (fun _ => "") "x"
      (resolveLanguage none "x" (fun _ => none)) (beginPass initState)) ∧
    (optimize_handler (fun _ => "") "x"
      (resolveLanguage none "x" (fun _ => none))
      (beginPass initState)).history ≠ [] ∧
    (optimize_handler (fun _ => "") "x"
      (resolveLanguage none "x" (fun _ => none))
      (beginPass initState)).show_explanation_only = false ∧
    comparison_view (optimize_handler (fun _ => "") "x"
      (resolveLanguage none "x" (fun _ => none)) (beginPass initState))
      = none :=
  ⟨Reachable.optimizePass initState none "x" (fun _ => none) (fun _ => "")
     Reachable.init,
   by decide, by decide, by decide⟩

/-- C4 amended: in every session state whose history ends in an entry whose
`cleaned` and `messy` both strip to non-empty, with `show_explanation_only`
off, the displayed optimized view is exactly that last entry.  (Stated for
all states, hence in particular for all reachable ones.) -/
theorem comparison_view_shows_last_entry (s : SessionState)
    (e : HistoryEntry) (_hr : Reachable s)
    (hlast : s.history.getLast? = some e)
    (hc : pyStripTruthy e.cleaned = true)
    (hm : pyStripTruthy e.messy = true)
    (hflag : s.show_explanation_only = false) :
    comparison_view s = some e := by
  unfold comparison_view
  rw [hlast]
  simp [hc, hm, hflag]

/-- After one optimize of "x" with completion "ok" the comparison view
shows that entry. -/
theorem comparison_view_shows_last_entry_witness :
    comparison_view (optimize_handler (fun _ => "ok") "x"
      (resolveLanguage none "x" (fun _ => none)) (beginPass initState))
      = some ⟨"x", "ok", none⟩ :=
  comparison_view_shows_last_entry _ ⟨"x", "ok", none⟩
    (Reachable.optimizePass initState none "x" (fun _ => none)
      (fun _ => "ok") Reachable.init)
    (by decide) (by decide) (by decide) (by decide)

/-- C5 as stated is false: the code lower-cases the lexer's name
(`lexer.name.lower()`, line 162) before any table lookup, so when nothing
matches, the fallback is the lower-cased name, not the name exactly as the
heuristic produced it: a heuristic answer "Brainfuck" resolves to
"brainfuck". -/
theorem raw_fallback_counterexample :
    resolveLanguage none "x" (fun _ => some "Brainfuck")
      = some "brainfuck" ∧
    some "brainfuck" ≠ some "Brainfuck" :=
  ⟨by rfl, by decide⟩

/-- C5 amended: with no usable extension and a non-empty code text, when
the lower-cased raw heuristic name matches no alias-table entry directly,
nor after lower-casing again, nor after stripping non-alphanumeric
characters from both sides, `resolveLanguage` returns the lower-cased raw
heuristic name. -/
theorem raw_fallback_lowercased (code raw : String)
    (guess : String → Option String)
    (hcode : code ≠ "") (hg : guess code = some raw)
    (h1 : List.lookup (pyLower raw) pygments_to_lang = none)
    (h2 : List.lookup (pyLower (pyLower raw)) pygments_to_lang = none)
    (h3 : pygments_to_lang.find? (fun kv =>
      stripNonAlnum (pyLower kv.1)
        == stripNonAlnum (pyLower (pyLower raw))) = none) :
    resolveLanguage none code guess = some (pyLower raw) := by
  unfold resolveLanguage normalize_pygments_name
  simp [hcode, hg, h1, h2, h3]

/-- The heuristic name "Brainfuck" (no table match in any form) resolves
to "brainfuck". -/
theorem raw_fallback_lowercased_witness :
    resolveLanguage none "x" (fun _ => some "Brainfuck")
      = some (pyLower "Brainfuck") :=
  raw_fallback_lowercased "x" "Brainfuck" (fun _ => some "Brainfuck")
    (by decide) rfl (by rfl) (by rfl) (by rfl)

/-- C6: any spelling whose lower-casing is a key of the alias table
normalizes to that key's canonical tag — all letter-case variants of an
alias (such as "C++", "c++", "Cpp") give the same tag. -/
theorem alias_normalization_canonical (s k v : String)
    (hk : List.lookup k pygments_to_lang = some v)
    (hs : pyLower s = k) :
    normalize_pygments_name s = v := by
  unfold normalize_pygments_name
  simp [hs, hk]

/-- "C++", "c++" and "Cpp" all normalize to `cpp`, and "C# (C-Sharp)" and
"c# (c-sharp)" to `csharp`. -/
theorem alias_normalization_canonical_witness :
    normalize_pygments_name "C++" = "cpp" ∧
    normalize_pygments_name "c++" = "cpp" ∧
    normalize_pygments_name "Cpp" = "cpp" ∧
    normalize_pygments_name "C# (C-Sharp)" = "csharp" ∧
    normalize_pygments_name "c# (c-sharp)" = "csharp" :=
  ⟨alias_normalization_canonical "C++" "c++" "cpp" (by rfl) (by rfl),
   alias_normalization_canonical "c++" "c++" "cpp" (by rfl) (by rfl),
   alias_normalization_canonical "Cpp" "cpp" "cpp" (by rfl) (by rfl),
   alias_normalization_canonical "C# (C-Sharp)" "c# (c-sharp)" "csharp"
     (by rfl) (by rfl),
   alias_normalization_canonical "c# (c-sharp)" "c# (c-sharp)" "csharp"
     (by rfl) (by rfl)⟩

/-- C7: whenever the guessing heuristic raises its could-not-classify
condition (modelled by `guess` returning `none`), resolution yields `none`
— with no file, or with a file whose extension misses the table — and,
`resolveLanguage` being a total function, nothing is propagated to the
caller. -/
theorem classnotfound_yields_none (code : String)
    (guess : String → Option String) (hg : guess code = none) :
    resolveLanguage none code guess = none ∧
    ∀ name : String,
      List.lookup (pyLower (splitextExt name)) EXTENSION_TO_LANG = none →
      resolveLanguage (some name) code guess = none := by
  constructor
  · simp [resolveLanguage, hg]
  · intro name hname
    simp [resolveLanguage, hg, hname]

/-- A heuristic that never classifies yields an unresolved language both
without a file and with a file of unknown extension. -/
theorem classnotfound_yields_none_witness :
    resolveLanguage none "x" (fun _ => none) = none ∧
    resolveLanguage (some "file.xyz") "x" (fun _ => none) = none :=
  ⟨(classnotfound_yields_none "x" (fun _ => none) rfl).1,
   (classnotfound_yields_none "x" (fun _ => none) rfl).2 "file.xyz"
     (by rfl)⟩

/-- C8: from every prior state, the clear handler empties the history and
the pending input buffer, sets the `clear_triggered` flag, and the text
area is rendered blank on the next pass whatever file is present. -/
theorem clear_resets_everything (s : SessionState) (u : Option String) :
    (clear_handler s).history = [] ∧
    (clear_handler s).text_input_value = "" ∧
    (clear_handler s).clear_triggered = true ∧
    displayed_input (clear_handler s) u = "" := by
  simp [clear_handler, displayed_input]

/-- C9: on a non-blank buffer the explain handler renders with
`show_explanation_only` set, ends with the flag reset to `false` and every
other field — history and pending input included — exactly as before,
appends nothing, and returns the completion of the explain prompt. -/
theorem explain_leaves_history_alone (s : SessionState)
    (complete : String → String) (messy : String) (lang : Option String)
    (h : pyStripTruthy messy = true) :
    (explain_handler complete messy lang s).1.show_explanation_only
      = true ∧
    (explain_handler complete messy lang s).2.1
      = { s with show_explanation_only := false } ∧
    (explain_handler complete messy lang s).2.1.history = s.history ∧
    (explain_handler complete messy lang s).2.1.text_input_value
      = s.text_input_value ∧
    (explain_handler complete messy lang s).2.2
      = some (complete (explain_prompt lang messy)) := by
  simp [explain_handler, h]

/-- Explaining "x" from a one-entry state keeps that history and buffer. -/
theorem explain_leaves_history_alone_witness :
    (explain_handler (fun _ => "expl") "x" none
      { history := [⟨"a", "b", none⟩], text_input_value := "t",
        clear_triggered := false,
        show_explanation_only := false }).2.1.history
      = [⟨"a", "b", none⟩] :=
  (explain_leaves_history_alone
    { history := [⟨"a", "b", none⟩], text_input_value := "t",
      clear_triggered := false, show_explanation_only := false }
    (fun _ => "expl") "x" none (by decide)).2.2.1

/-- C10: on a blank (empty or whitespace-only) buffer both handlers do
nothing: the state is returned unchanged, the explain output is empty,
and this holds for every completion function — so no completion call can
influence anything. -/
theorem blank_input_is_noop (s : SessionState) (c : String → String)
    (messy : String) (lang : Option String)
    (h : pyStripTruthy messy = false) :
    optimize_handler c messy lang s = s ∧
    explain_handler c messy lang s = (s, s, none) := by
  simp [optimize_handler, explain_handler, h]

/-- A whitespace-only buffer leaves the initial state untouched by both
handlers even with a completion that always answers. -/
theorem blank_input_is_noop_witness :
    optimize_handler (fun _ => "boom") "  \n" none initState
      = initState ∧
    explain_handler (fun _ => "boom") "  \n" none initState
      = (initState, initState, none) :=
  blank_input_is_noop initState (fun _ => "boom") "  \n" none (by decide)
